import Mathlib

/-!
Verification of the cographiql kernel / ontogenesis core.

The definitions below are a shallow embedding of the TypeScript/JavaScript
sources of the repository:
  * `ElementaryDifferentialsGenerator` (rooted-tree enumerator, A000081 count),
  * `BSeriesEngine` (expansions, Butcher tableaux, composition, order conditions),
  * `GripOptimizer.measureGrip` and the generator grip presets,
  * `UniversalKernelGenerator.applyOperator` (chain / product / quotient),
  * `OntogenesisEngine` (genomes, reproduction, development stages, evolve).

Number model: all arithmetic that the source performs on JS numbers is modelled
over `ℚ` where the source only uses field operations, and over `ℝ` where the
source uses `Math.sqrt`, `Math.exp`, `Math.sin` or `Math.PI`.  `Date`-valued
timestamp fields carry no algorithmic content and are omitted from the records.
Labels of rooted trees are strings in the source built from a fixed grammar
(the function symbol, primes, parenthesised argument lists); they are embedded
as the inductive `LabelT` that records the prime count and the argument labels,
which renders injectively to the source strings, so label equality in `LabelT`
coincides with string equality in the source.  The source type `RootedTree` is
embedded as `RTree` (the name `RootedTree` is taken by the ambient library).
-/

/-- Rooted-tree label: `mk p args` stands for the string made of the function
symbol, `p` primes and the parenthesised rendering of `args` (a leaf label is
`mk 0 []`).  Equality of these values coincides with string equality of the
source labels. -/
inductive LabelT where
  | mk : ℕ → List LabelT → LabelT

mutual

/-- Structural equality decision for labels (the source compares label strings). -/
def LabelT.deq : (a b : LabelT) → Decidable (a = b)
  | .mk p1 l1, .mk p2 l2 =>
    match Nat.decEq p1 p2 with
    | isFalse h => isFalse (by simp [h])
    | isTrue h =>
      match LabelT.deqList l1 l2 with
      | isTrue h2 => isTrue (by rw [h, h2])
      | isFalse h2 => isFalse (by simp [h, h2])

/-- Structural equality decision for lists of labels. -/
def LabelT.deqList : (l1 l2 : List LabelT) → Decidable (l1 = l2)
  | [], [] => isTrue rfl
  | [], _ :: _ => isFalse (by simp)
  | _ :: _, [] => isFalse (by simp)
  | a :: as, b :: bs =>
    match LabelT.deq a b with
    | isFalse h => isFalse (by simp [h])
    | isTrue h =>
      match LabelT.deqList as bs with
      | isTrue h2 => isTrue (by rw [h, h2])
      | isFalse h2 => isFalse (by simp [h, h2])

end

instance : DecidableEq LabelT := LabelT.deq

/-- RootedTree from `types.ts` / the enumerator: order, label, ordered
children. -/
inductive RTree where
  | mk : ℕ → LabelT → List RTree → RTree

mutual

/-- Structural equality decision for trees (the source compares trees via
`JSON.stringify`, i.e. full structural equality). -/
def RTree.deq : (a b : RTree) → Decidable (a = b)
  | .mk o1 l1 c1, .mk o2 l2 c2 =>
    match Nat.decEq o1 o2 with
    | isFalse h => isFalse (by simp [h])
    | isTrue h =>
      match LabelT.deq l1 l2 with
      | isFalse h2 => isFalse (by simp [h2])
      | isTrue h2 =>
        match RTree.deqList c1 c2 with
        | isTrue h3 => isTrue (by rw [h, h2, h3])
        | isFalse h3 => isFalse (by simp [h3])

/-- Structural equality decision for lists of trees. -/
def RTree.deqList : (l1 l2 : List RTree) → Decidable (l1 = l2)
  | [], [] => isTrue rfl
  | [], _ :: _ => isFalse (by simp)
  | _ :: _, [] => isFalse (by simp)
  | a :: as, b :: bs =>
    match RTree.deq a b with
    | isFalse h => isFalse (by simp [h])
    | isTrue h =>
      match RTree.deqList as bs with
      | isTrue h2 => isTrue (by rw [h, h2])
      | isFalse h2 => isFalse (by simp [h, h2])

end

instance : DecidableEq RTree := RTree.deq

/-- The `order` field of a rooted tree. -/
def RTree.order : RTree → ℕ
  | .mk o _ _ => o

/-- The `label` field of a rooted tree. -/
def RTree.label : RTree → LabelT
  | .mk _ l _ => l

/-- The `children` field of a rooted tree. -/
def RTree.children : RTree → List RTree
  | .mk _ _ c => c

namespace ElementaryDifferentialsGenerator

/-- generatePartitions from the enumerator: all partitions of `n` into a
non-increasing list of positive parts, in the enumeration order of the source
(outer loop over the first part `i = 1..n`, inner recursion on `n - i`,
keeping `i :: sub` when `sub` is empty or `i ≤ sub[0]`). -/
def generatePartitions : ℕ → List (List ℕ)
  | 0 => [[]]
  | 1 => [[1]]
  | (n+2) =>
    (List.range (n+2)).flatMap (fun j =>
      let i := j + 1
      let remaining := n + 2 - i
      if remaining = 0 then [[i]]
      else
        (generatePartitions remaining).filterMap (fun sub =>
          if sub.isEmpty || i ≤ sub.headD 0 then some (i :: sub) else none))
  decreasing_by omega

/-- Every part of a partition of `m` is between 1 and `m`. -/
theorem generatePartitions_part_le :
    ∀ (m : ℕ), ∀ s ∈ generatePartitions m, ∀ p ∈ s, 1 ≤ p ∧ p ≤ m := by
  intro m
  induction m using Nat.strong_induction_on with
  | _ m ih =>
    match m with
    | 0 =>
      intro s hs p hp
      simp only [generatePartitions, List.mem_singleton] at hs
      simp [hs] at hp
    | 1 =>
      intro s hs p hp
      simp only [generatePartitions, List.mem_singleton] at hs
      simp [hs] at hp
      omega
    | (n+2) =>
      intro s hs p hp
      simp only [generatePartitions, List.mem_flatMap, List.mem_range] at hs
      obtain ⟨j, hj, hmem⟩ := hs
      by_cases hrem : n + 2 - (j + 1) = 0
      · simp [hrem] at hmem
        subst hmem
        simp at hp
        omega
      · simp only [hrem, if_false, List.mem_filterMap] at hmem
        obtain ⟨sub, hsub, hkeep⟩ := hmem
        split at hkeep
        · cases hkeep
          rcases List.mem_cons.mp hp with h | h
          · omega
          · have := ih (n + 2 - (j + 1)) (by omega) sub hsub p h
            omega
        · cases hkeep

/-- generateLabel from the enumerator: zero subtrees give the plain symbol,
one subtree gives one prime, `k ≥ 2` subtrees give `k - 1` primes. -/
def generateLabel (subtrees : List LabelT) : LabelT :=
  match subtrees with
  | [] => .mk 0 []
  | [l] => .mk 1 [l]
  | ls => .mk (ls.length - 1) ls

/-- The leaf tree of order 1 with the plain function-symbol label. -/
def leafTree : RTree := .mk 1 (.mk 0 []) []

/-- The unique order-2 catalog tree. -/
def tree2 : RTree := .mk 2 (.mk 1 [.mk 0 []]) [leafTree]

/-- First order-3 catalog tree (two leaf children, two primes in the label). -/
def tree3a : RTree := .mk 3 (.mk 2 [.mk 0 [], .mk 0 []]) [leafTree, leafTree]

/-- Second order-3 catalog tree (a single order-2 child). -/
def tree3b : RTree := .mk 3 (.mk 1 [.mk 1 [.mk 0 []]]) [tree2]

/-- generate from the enumerator: hardcoded canonical catalogs for orders 1–4
(1, 1, 2 and 5 trees), the recursive partition-based construction above
order 4, and the empty list at order 0. -/
def generate (order : ℕ) : List RTree :=
  match order with
  | 0 => []
  | 1 => [leafTree]
  | 2 => [tree2]
  | 3 => [tree3a, tree3b]
  | 4 =>
    [ .mk 4 (.mk 3 [.mk 0 [], .mk 0 [], .mk 0 []]) [leafTree, leafTree, leafTree],
      .mk 4 (.mk 2 [.mk 1 [.mk 0 []], .mk 0 []]) [tree2, leafTree],
      .mk 4 (.mk 2 [.mk 0 [], .mk 1 [.mk 0 []]]) [leafTree, tree2],
      .mk 4 (.mk 1 [.mk 2 [.mk 0 [], .mk 0 []]]) [tree3a],
      .mk 4 (.mk 1 [.mk 1 [.mk 1 [.mk 0 []]]]) [tree3b] ]
  | (n+5) =>
    (generatePartitions (n+4)).attach.flatMap (fun ⟨partition, hpart⟩ =>
      let subtrees := partition.attach.filterMap
        (fun ⟨p, _⟩ => (generate p).head?)
      if subtrees.isEmpty then []
      else [.mk (n+5) (generateLabel (subtrees.map RTree.label)) subtrees])
  decreasing_by
    have := generatePartitions_part_le (n+4) partition hpart _ (by assumption)
    omega

/-- Factorial as written in the source (`n ≤ 1` gives 1). -/
def factorialJS : ℕ → ℕ
  | 0 => 1
  | 1 => 1
  | (n+2) => (n+2) * factorialJS (n+1)

/-- symmetryFactor from the enumerator: 1 on leaves, otherwise the product of
the factorials of the multiplicities of structurally equal children times the
symmetry factors of the children. -/
def symmetryFactor (t : RTree) : ℕ :=
  match t with
  | .mk _ _ children =>
    match children with
    | [] => 1
    | cs =>
      (cs.dedup.map (fun c => factorialJS (cs.count c))).prod *
        (cs.attach.map (fun ⟨c, _⟩ => symmetryFactor c)).prod

/-- The hardcoded A000081 table of the source (index 0 holds 0). -/
def a000081 : List ℤ :=
  [0, 1, 1, 2, 4, 9, 20, 48, 115, 286, 719, 1842, 4766, 12486, 32973]

/-- count from the enumerator: table lookup below the table length, and the
floating-point asymptotic `floor(2.9557652856^n / sqrt n)` (modelled over `ℝ`)
beyond it. -/
noncomputable def count (n : ℕ) : ℤ :=
  if n < a000081.length then a000081.getD n 0
  else ⌊(2.9557652856 : ℝ) ^ n / Real.sqrt n⌋

end ElementaryDifferentialsGenerator

/-- Domain type from `types.ts`: the five supported application domains. -/
inductive DomainType where
  | physics | chemistry | biology | computing | consciousness
deriving DecidableEq

/-- DomainSpecification from `types.ts`. -/
structure DomainSpecification where
  type : DomainType
  order : ℕ
  treeType : String
  symmetry : String
  preserves : List String
deriving DecidableEq

/-- GripMetric from `types.ts`, polymorphic in the number model (`ℚ` for the
purely rational computations, `ℝ` where the source uses transcendental
functions). -/
structure GripMetric (α : Type) where
  contact : α
  coverage : α
  efficiency : α
  stability : α
  overall : α
deriving DecidableEq

/-- ButcherTableau from `types.ts`. -/
structure ButcherTableau where
  order : ℕ
  stages : ℕ
  a : List (List ℚ)
  b : List ℚ
  c : List ℚ

/-- One term of a B-series expansion (`BSeriesTerm` in `types.ts`): its tree,
coefficient, per-term grip and order. -/
structure BSeriesTerm where
  tree : RTree
  coefficient : ℚ
  grip : ℚ
  order : ℕ
deriving DecidableEq

/-- BSeriesExpansion from `types.ts`. -/
structure BSeriesExpansion where
  domain : DomainSpecification
  terms : List BSeriesTerm
  convergenceOrder : ℕ
  grip : GripMetric ℚ
deriving DecidableEq

namespace BSeriesEngine

/-- getButcherTableau from `b-series.js`: Euler, midpoint, Kutta-3 for orders
1–3, and the classic RK4 tableau for order 4 and every other order (the
`default` switch branch). -/
def getButcherTableau (domain : DomainSpecification) : ButcherTableau :=
  match domain.order with
  | 1 => { order := 1, stages := 1, a := [[0]], b := [1], c := [0] }
  | 2 =>
    { order := 2, stages := 2, a := [[0, 0], [1/2, 0]], b := [0, 1], c := [0, 1/2] }
  | 3 =>
    { order := 3, stages := 3, a := [[0, 0, 0], [1/2, 0, 0], [-1, 2, 0]],
      b := [1/6, 2/3, 1/6], c := [0, 1/2, 1] }
  | _ =>
    { order := 4, stages := 4,
      a := [[0, 0, 0, 0], [1/2, 0, 0, 0], [0, 1/2, 0, 0], [0, 0, 1, 0]],
      b := [1/6, 1/3, 1/3, 1/6], c := [0, 1/2, 1/2, 1] }

/-- computeCoefficient from `b-series.js`:
`(Σ_i b_i · c_i^(order-1)) / (symmetryFactor · order)`.  `Math.pow (c_i) 0 = 1`
also at `c_i = 0`, matching `ℚ` power with a natural exponent. -/
def computeCoefficient (tree : RTree) (tableau : ButcherTableau) : ℚ :=
  let order := tree.order
  let symmetry := ElementaryDifferentialsGenerator.symmetryFactor tree
  let coefficient :=
    (tableau.b.zip tableau.c).foldl (fun acc bc => acc + bc.1 * bc.2 ^ (order - 1)) 0
  coefficient / ((symmetry : ℚ) * (order : ℚ))

/-- computeTreeDepth from `b-series.js`: 1 on leaves, else 1 + max child depth. -/
def computeTreeDepth (t : RTree) : ℕ :=
  match t with
  | .mk _ _ [] => 1
  | .mk _ _ cs => 1 + (cs.attach.map (fun ⟨ch, _⟩ => computeTreeDepth ch)).foldl max 0

/-- computeTreeBalance from `b-series.js`: 1 on leaves, else the ratio of the
minimal to the maximal child depth. -/
def computeTreeBalance (t : RTree) : ℚ :=
  match t with
  | .mk _ _ [] => 1
  | .mk _ _ cs =>
    let depths := cs.attach.map (fun ⟨ch, _⟩ => computeTreeDepth ch)
    match depths with
    | [] => 1
    | d :: ds => ((ds.foldl min d : ℕ) : ℚ) / ((ds.foldl max d : ℕ) : ℚ)

/-- computeGrip from `b-series.js`: the per-term grip
`(contact·depthFactor + coverage·balanceFactor + efficiency/order +
stability·0.8) / 4`. -/
def computeGrip (tree : RTree) (gripMetric : GripMetric ℚ) : ℚ :=
  let depthFactor := ((computeTreeDepth tree : ℚ)) / (tree.order : ℚ)
  let balanceFactor := computeTreeBalance tree
  (gripMetric.contact * depthFactor +
    gripMetric.coverage * balanceFactor +
    gripMetric.efficiency * (1 / (tree.order : ℚ)) +
    gripMetric.stability * 0.8) / 4

/-- generateExpansion from `b-series.js`: enumerate the trees of
`domain.order`, pick the tableau, and build one term per tree. -/
def generateExpansion (domain : DomainSpecification) (gripMetric : GripMetric ℚ) :
    BSeriesExpansion :=
  let trees := ElementaryDifferentialsGenerator.generate domain.order
  let tableau := getButcherTableau domain
  { domain := domain,
    terms := trees.map (fun tree =>
      { tree := tree, coefficient := computeCoefficient tree tableau,
        grip := computeGrip tree gripMetric, order := tree.order }),
    convergenceOrder := domain.order,
    grip := gripMetric }

/-- generateRungeKutta from `b-series.js`: the fixed computing/recursion
domain preset with the fixed grip profile fed into `generateExpansion`. -/
def generateRungeKutta (order : ℕ) : BSeriesExpansion :=
  generateExpansion
    { type := .computing, order := order, treeType := "recursion",
      symmetry := "time-reversible", preserves := ["energy", "momentum"] }
    { contact := 1.0, coverage := 1.0, efficiency := 0.9, stability := 1.0,
      overall := 0.975 }

/-- findCoefficient from `b-series.js`: first term whose tree has the same
label, else 0. -/
def findCoefficient (tree : RTree) (terms : List BSeriesTerm) : ℚ :=
  match terms.find? (fun t => t.tree.label == tree.label) with
  | some t => t.coefficient
  | none => 0

/-- chainCompose from `b-series.js`: re-enumerate trees at the max order,
multiply label-matched coefficients, and combine grips (average of contact,
coverage, overall; product of efficiency; min of stability). -/
def chainCompose (f g : BSeriesExpansion) : BSeriesExpansion :=
  let maxOrder := max f.convergenceOrder g.convergenceOrder
  let trees := ElementaryDifferentialsGenerator.generate maxOrder
  { domain := f.domain,
    terms := trees.map (fun tree =>
      { tree := tree,
        coefficient := findCoefficient tree f.terms * findCoefficient tree g.terms,
        grip := (f.grip.overall + g.grip.overall) / 2,
        order := tree.order }),
    convergenceOrder := maxOrder,
    grip :=
      { contact := (f.grip.contact + g.grip.contact) / 2,
        coverage := (f.grip.coverage + g.grip.coverage) / 2,
        efficiency := f.grip.efficiency * g.grip.efficiency,
        stability := min f.grip.stability g.grip.stability,
        overall := (f.grip.overall + g.grip.overall) / 2 } }

/-- productCompose from `b-series.js`: re-enumerate trees at the max order,
add label-matched coefficients, and combine grips (max of contact, average of
coverage and efficiency, min of stability, average of overall). -/
def productCompose (f g : BSeriesExpansion) : BSeriesExpansion :=
  let maxOrder := max f.convergenceOrder g.convergenceOrder
  let trees := ElementaryDifferentialsGenerator.generate maxOrder
  { domain := f.domain,
    terms := trees.map (fun tree =>
      { tree := tree,
        coefficient := findCoefficient tree f.terms + findCoefficient tree g.terms,
        grip := max f.grip.overall g.grip.overall,
        order := tree.order }),
    convergenceOrder := maxOrder,
    grip :=
      { contact := max f.grip.contact g.grip.contact,
        coverage := (f.grip.coverage + g.grip.coverage) / 2,
        efficiency := (f.grip.efficiency + g.grip.efficiency) / 2,
        stability := min f.grip.stability g.grip.stability,
        overall := (f.grip.overall + g.grip.overall) / 2 } }

/-- Factorial as written in `b-series.js` (`n ≤ 1` gives 1). -/
def factorial : ℕ → ℕ
  | 0 => 1
  | 1 => 1
  | (n+2) => (n+2) * factorial (n+1)

/-- verifyOrderConditions from `b-series.js`: for each order `p` from 1 to the
convergence order, the coefficients of the terms of that order must sum to
`1/p!` within `1e-10`. -/
def verifyOrderConditions (expansion : BSeriesExpansion) : Bool :=
  (List.range expansion.convergenceOrder).all (fun i =>
    let order := i + 1
    let sum := (expansion.terms.filter (fun t => t.order == order)).foldl
      (fun acc t => acc + t.coefficient) 0
    decide (|sum - 1 / (factorial order : ℚ)| ≤ (1e-10 : ℚ)))

end BSeriesEngine

namespace GripOptimizer

/-- vectorNorm from `grip-optimizer.ts`: Euclidean norm via `Math.sqrt`. -/
noncomputable def vectorNorm (v : List ℝ) : ℝ :=
  Real.sqrt (v.foldl (fun sum x => sum + x * x) 0)

/-- getDomainWeights from `grip-optimizer.ts`: the per-domain expected
coefficient pattern, indexed by `i = 0 .. order-1`. -/
noncomputable def getDomainWeights (domain : DomainSpecification) : List ℝ :=
  (List.range domain.order).map (fun i =>
    match domain.type with
    | .physics => (-1 : ℝ) ^ i / ((i : ℝ) + 1)
    | .chemistry => Real.exp (-(i : ℝ) / 2)
    | .biology => 1 / (1 + (i : ℝ) * (i : ℝ))
    | .computing => 1 / (2 : ℝ) ^ i
    | .consciousness => Real.sin ((i : ℝ) * Real.pi / (domain.order : ℝ)))

/-- computeContact from `grip-optimizer.ts`: absolute cosine similarity with
the domain weights, 0 when either norm vanishes. -/
noncomputable def computeContact (coeffs : List ℝ) (domain : DomainSpecification) : ℝ :=
  let domainWeights := getDomainWeights domain
  let dotProduct := (coeffs.zip domainWeights).foldl (fun sum p => sum + p.1 * p.2) 0
  let coeffNorm := vectorNorm coeffs
  let weightNorm := vectorNorm domainWeights
  if coeffNorm = 0 ∨ weightNorm = 0 then 0
  else |dotProduct / (coeffNorm * weightNorm)|

/-- computeCoverage from `grip-optimizer.ts`: fraction of coefficients of
magnitude above `1e-10`. -/
noncomputable def computeCoverage (coeffs : List ℝ) : ℝ :=
  ((coeffs.filter (fun cf => decide (|cf| > (1e-10 : ℝ)))).length : ℝ) /
    (coeffs.length : ℝ)

/-- computeEfficiency from `grip-optimizer.ts`:
`0.5·sparsity + 0.5/(1+‖coeffs‖)`. -/
noncomputable def computeEfficiency (coeffs : List ℝ) : ℝ :=
  let sparsity :=
    ((coeffs.filter (fun cf => decide (|cf| < (1e-10 : ℝ)))).length : ℝ) /
      (coeffs.length : ℝ)
  let magnitude := vectorNorm coeffs
  0.5 * sparsity + 0.5 / (1 + magnitude)

/-- computeVariance from `grip-optimizer.ts`. -/
noncomputable def computeVariance (v : List ℝ) : ℝ :=
  let mean := v.foldl (fun sum x => sum + x) 0 / (v.length : ℝ)
  (v.foldl (fun sum x => sum + (x - mean) ^ 2) 0) / (v.length : ℝ)

/-- computeStability from `grip-optimizer.ts`: average of `1/(1+max|c|)` and
`1/(1+variance)`.  (`Math.max` of an empty spread is `-Infinity` in JS; that
case is modelled as 0 and is never reached by the claims.) -/
noncomputable def computeStability (coeffs : List ℝ) : ℝ :=
  let maxCoeff :=
    match coeffs.map (fun x => |x|) with
    | [] => 0
    | x :: xs => xs.foldl max x
  let variance := computeVariance coeffs
  let boundedness := 1 / (1 + maxCoeff)
  let smoothness := 1 / (1 + variance)
  (boundedness + smoothness) / 2

/-- measureGrip from `grip-optimizer.ts`: the four component metrics and the
weighted overall `0.3·contact + 0.3·coverage + 0.2·efficiency +
0.2·stability`. -/
noncomputable def measureGrip (coeffs : List ℝ) (domain : DomainSpecification) :
    GripMetric ℝ :=
  let contact := computeContact coeffs domain
  let coverage := computeCoverage coeffs
  let efficiency := computeEfficiency coeffs
  let stability := computeStability coeffs
  { contact := contact, coverage := coverage, efficiency := efficiency,
    stability := stability,
    overall := 0.3 * contact + 0.3 * coverage + 0.2 * efficiency + 0.2 * stability }

/-- isSufficientGrip from `grip-optimizer.ts`. -/
noncomputable def isSufficientGrip (grip : GripMetric ℝ) (threshold : ℝ) : Bool :=
  decide (grip.overall ≥ threshold)

end GripOptimizer

/-- Generation metadata of a kernel (`metadata` in `types.ts`); the timestamp
and version tag carry no algorithmic content, only the optimizer iteration
count is kept. -/
structure KernelMetadata where
  optimizationIterations : ℕ
deriving DecidableEq

/-- GeneratedKernel from `types.ts`. -/
structure GeneratedKernel where
  domain : DomainSpecification
  order : ℕ
  trees : List RTree
  coefficients : List ℚ
  grip : GripMetric ℚ
  bSeries : BSeriesExpansion
  metadata : KernelMetadata
deriving DecidableEq

/-- The optimization goal of a generation context. -/
inductive OptimizationGoal where
  | speed | accuracy | stability | balanced
deriving DecidableEq

/-- The differential operators of `types.ts`. -/
inductive DifferentialOperator where
  | chain | product | quotient
deriving DecidableEq

/-- OperatorApplication from `types.ts`. -/
structure OperatorApplication where
  operator : DifferentialOperator
  leftOperand : GeneratedKernel
  rightOperand : GeneratedKernel
  result : GeneratedKernel
deriving DecidableEq

namespace UniversalKernelGenerator

/-- initializeGrip from `generator.ts` (named `initGrip` here): the four fixed
goal presets, with `overall` the unweighted mean of the four components. -/
def initGrip (goal : OptimizationGoal) : GripMetric ℚ :=
  let metrics : ℚ × ℚ × ℚ × ℚ :=
    match goal with
    | .speed => (0.6, 0.7, 1.0, 0.6)
    | .accuracy => (1.0, 1.0, 0.5, 0.9)
    | .stability => (0.8, 0.8, 0.6, 1.0)
    | .balanced => (0.8, 0.8, 0.8, 0.8)
  { contact := metrics.1, coverage := metrics.2.1, efficiency := metrics.2.2.1,
    stability := metrics.2.2.2,
    overall := (metrics.1 + metrics.2.1 + metrics.2.2.1 + metrics.2.2.2) / 4 }

/-- chainCompose from `generator.ts`: delegate to the B-series engine and
repackage the composed expansion as a kernel. -/
def chainCompose (f g : GeneratedKernel) : GeneratedKernel :=
  let composed := BSeriesEngine.chainCompose f.bSeries g.bSeries
  { domain := f.domain, order := max f.order g.order,
    trees := composed.terms.map (fun t => t.tree),
    coefficients := composed.terms.map (fun t => t.coefficient),
    grip := composed.grip, bSeries := composed,
    metadata := { optimizationIterations := 0 } }

/-- productCompose from `generator.ts`. -/
def productCompose (f g : GeneratedKernel) : GeneratedKernel :=
  let composed := BSeriesEngine.productCompose f.bSeries g.bSeries
  { domain := f.domain, order := max f.order g.order,
    trees := composed.terms.map (fun t => t.tree),
    coefficients := composed.terms.map (fun t => t.coefficient),
    grip := composed.grip, bSeries := composed,
    metadata := { optimizationIterations := 0 } }

/-- quotientCompose from `generator.ts`: re-enumerate the trees of the max
order and combine coefficients positionally as
`(left_i - right_i) / (1 + |right_i|)` (0 for indices beyond either array),
with its own ad hoc grip combination. -/
def quotientCompose (f g : GeneratedKernel) : GeneratedKernel :=
  let maxOrder := max f.order g.order
  let trees := ElementaryDifferentialsGenerator.generate maxOrder
  let coefficients := (List.range trees.length).map (fun i =>
    let fCoeff := if i < f.coefficients.length then f.coefficients.getD i 0 else 0
    let gCoeff := if i < g.coefficients.length then g.coefficients.getD i 0 else 0
    (fCoeff - gCoeff) / (1 + |gCoeff|))
  let grip : GripMetric ℚ :=
    { contact := (f.grip.contact + g.grip.contact) / 2,
      coverage := min f.grip.coverage g.grip.coverage,
      efficiency := f.grip.efficiency * g.grip.efficiency,
      stability := (min f.grip.stability g.grip.stability) * 0.9,
      overall := (f.grip.overall + g.grip.overall) / 2.2 }
  { domain := f.domain, order := maxOrder, trees := trees,
    coefficients := coefficients, grip := grip,
    bSeries :=
      { domain := f.domain,
        terms := (trees.zip coefficients).map (fun tc =>
          { tree := tc.1, coefficient := tc.2, grip := grip.overall,
            order := tc.1.order }),
        convergenceOrder := maxOrder, grip := grip },
    metadata := { optimizationIterations := 0 } }

/-- applyOperator from `generator.ts`: dispatch on the operator (the three
operator names form the whole `DifferentialOperator` type, so the `default`
throw branch of the source switch is unreachable). -/
def applyOperator (operator : DifferentialOperator) (left right : GeneratedKernel) :
    OperatorApplication :=
  let result :=
    match operator with
    | .chain => chainCompose left right
    | .product => productCompose left right
    | .quotient => quotientCompose left right
  { operator := operator, leftOperand := left, rightOperand := right,
    result := result }

end UniversalKernelGenerator

/-- Injectable random source of the ontogenesis layer (`Math.random` and the
unique-id generator of `generateId`), modelled as a stream of rationals (each
meant to lie in `[0,1)`) with a cursor, plus a fresh-id counter. -/
structure Rng where
  vals : ℕ → ℚ
  pos : ℕ
  nextId : ℕ

/-- Draw the next random value. -/
def Rng.next (r : Rng) : ℚ × Rng :=
  (r.vals r.pos, { r with pos := r.pos + 1 })

/-- Draw a fresh unique id (`generateId` in the source builds one from the
clock and a random suffix; only its uniqueness is relevant). -/
def Rng.freshId (r : Rng) : ℕ × Rng :=
  (r.nextId, { r with nextId := r.nextId + 1 })

/-- `Math.floor (r * length)` as used for random index selection. -/
def jsFloorIndex (r : ℚ) (length : ℕ) : ℕ :=
  (⌊r * (length : ℚ)⌋).toNat

/-- Gene kinds from `ontogenesis-types.ts`. -/
inductive GeneType where
  | operator | coefficient | symmetry | preservation
deriving DecidableEq

/-- Gene payload: the source stores either a coefficient (number) or a
symmetry / preserved-quantity name (string) in the `any`-typed `value`. -/
inductive GeneValue where
  | num : ℚ → GeneValue
  | str : String → GeneValue
deriving DecidableEq

/-- KernelGene from `ontogenesis-types.ts`. -/
structure KernelGene where
  type : GeneType
  value : GeneValue
  expressionStrength : ℚ
  mutable : Bool
deriving DecidableEq

/-- KernelGenome from `ontogenesis-types.ts` (ids modelled as naturals). -/
structure KernelGenome where
  id : ℕ
  generation : ℕ
  lineage : List ℕ
  genes : List KernelGene
  fitness : ℚ
  age : ℕ
deriving DecidableEq

/-- DevelopmentStage from `ontogenesis-types.ts`. -/
inductive DevelopmentStage where
  | embryonic | juvenile | mature | senescent
deriving DecidableEq

/-- Rendering of a stage used in development-history descriptions. -/
def DevelopmentStage.name : DevelopmentStage → String
  | .embryonic => "embryonic"
  | .juvenile => "juvenile"
  | .mature => "mature"
  | .senescent => "senescent"

/-- MutationRecord from `ontogenesis-types.ts` (timestamp omitted). -/
structure MutationRecord where
  geneIndex : ℕ
  oldValue : ℚ
  newValue : ℚ
  impact : ℚ
deriving DecidableEq

/-- Development-event kinds from `ontogenesis-types.ts`. -/
inductive DevelopmentEventType where
  | mutation | crossover | optimization | stageTransition
deriving DecidableEq

/-- DevelopmentEvent from `ontogenesis-types.ts` (timestamp omitted). -/
structure DevelopmentEvent where
  type : DevelopmentEventType
  description : String
  fitnessChange : ℚ
deriving DecidableEq

/-- OntogeneticState from `ontogenesis-types.ts`. -/
structure OntogeneticState where
  stage : DevelopmentStage
  maturity : ℚ
  reproductiveCapability : ℚ
  mutations : List MutationRecord
  developmentHistory : List DevelopmentEvent
deriving DecidableEq

/-- OntogeneticKernel from `ontogenesis-types.ts`: a generated kernel extended
with a genome and a developmental state. -/
structure OntogeneticKernel extends GeneratedKernel where
  genome : KernelGenome
  ontogeneticState : OntogeneticState
deriving DecidableEq

/-- KernelPopulation from `ontogenesis-types.ts`. -/
structure KernelPopulation where
  generation : ℕ
  individuals : List OntogeneticKernel
  populationSize : ℕ
  averageFitness : ℚ
  bestFitness : ℚ
  diversity : ℚ
deriving DecidableEq

/-- EvolutionParameters from `ontogenesis-types.ts`. -/
structure EvolutionParameters where
  populationSize : ℕ
  mutationRate : ℚ
  crossoverRate : ℚ
  elitismRate : ℚ
  maxGenerations : ℕ
  fitnessThreshold : ℚ
  diversityPressure : ℚ
deriving DecidableEq

/-- The five fitness component scores of a `FitnessEvaluation`. -/
structure FitnessScores where
  grip : ℚ
  stability : ℚ
  efficiency : ℚ
  novelty : ℚ
  symmetry : ℚ
deriving DecidableEq

/-- FitnessEvaluation from `ontogenesis-types.ts`. -/
structure FitnessEvaluation where
  kernel : OntogeneticKernel
  scores : FitnessScores
  overall : ℚ
  rank : ℕ
deriving DecidableEq

/-- Reproduction methods of `selfReproduce`. -/
inductive ReproductionMethod where
  | crossover | mutation | cloning
deriving DecidableEq

/-- ReproductionResult from `ontogenesis-types.ts`.  The `parents` field holds
the parent objects as they are after the call (the source stores references,
so mutations performed during reproduction are visible through them). -/
structure ReproductionResult where
  parents : OntogeneticKernel × OntogeneticKernel
  offspring : List OntogeneticKernel
  method : ReproductionMethod
deriving DecidableEq

namespace OntogenesisEngine

/-- createInitialState from `ontogenesis.ts`. -/
def createInitialState : OntogeneticState :=
  { stage := .embryonic, maturity := 0, reproductiveCapability := 0,
    mutations := [], developmentHistory := [] }

/-- extractGenome from `ontogenesis.ts`: one mutable gene per coefficient, an
immutable symmetry gene, one immutable gene per preserved quantity. -/
def extractGenome (kernel : GeneratedKernel) (rng : Rng) : KernelGenome × Rng :=
  let genes :=
    kernel.coefficients.map (fun coeff =>
      ({ type := .coefficient, value := .num coeff, expressionStrength := 1.0,
         mutable := true } : KernelGene))
    ++ [({ type := .symmetry, value := .str kernel.domain.symmetry,
           expressionStrength := 0.8, mutable := false } : KernelGene)]
    ++ kernel.domain.preserves.map (fun p =>
      ({ type := .preservation, value := .str p, expressionStrength := 0.9,
         mutable := false } : KernelGene))
  let (id, rng) := rng.freshId
  ({ id := id, generation := 0, lineage := [], genes := genes,
     fitness := kernel.grip.overall, age := 0 }, rng)

/-- The `initialize` static method of `ontogenesis.ts` (named `initKernel`
here): wrap a generated kernel with a fresh genome and embryonic state. -/
def initKernel (kernel : GeneratedKernel) (rng : Rng) : OntogeneticKernel × Rng :=
  let (genome, rng) := extractGenome kernel rng
  ({ toGeneratedKernel := kernel, genome := genome,
     ontogeneticState := createInitialState }, rng)

/-- selectOperator from `ontogenesis.ts`: chain below maturity 0.5, product
below 0.8, quotient from 0.8 on. -/
def selectOperator (kernel : OntogeneticKernel) : DifferentialOperator :=
  let maturity := kernel.ontogeneticState.maturity
  if maturity < 0.5 then .chain
  else if maturity < 0.8 then .product
  else .quotient

/-- selfGenerate from `ontogenesis.ts`: self-compose via the selected operator
and wrap the result as a freshly initialized offspring with incremented
generation and singleton lineage. -/
def selfGenerate (parent : OntogeneticKernel) (rng : Rng) : OntogeneticKernel × Rng :=
  let operation := selectOperator parent
  let composed := UniversalKernelGenerator.applyOperator operation
    parent.toGeneratedKernel parent.toGeneratedKernel
  let (offspring, rng) := initKernel composed.result rng
  ({ offspring with
      genome :=
        { offspring.genome with
          generation := parent.genome.generation + 1,
          lineage := [parent.genome.id] } }, rng)

/-- The private variance helper of `ontogenesis.ts`. -/
def variance (values : List ℚ) : ℚ :=
  let mean := values.foldl (fun acc v => acc + v) 0 / (values.length : ℚ)
  (values.map (fun v => (v - mean) ^ 2)).foldl (fun acc v => acc + v) 0 /
    (values.length : ℚ)

/-- recalculateGrip from `ontogenesis.ts`: the coefficient-based grip with
`overall` the unweighted mean of the four components. -/
def recalculateGrip (kernel : OntogeneticKernel) : GripMetric ℚ :=
  let coeffSum := kernel.coefficients.foldl (fun acc b => acc + |b|) 0
  let coeffVariance := variance kernel.coefficients
  let contact := min 1 (coeffSum / (kernel.coefficients.length : ℚ))
  let coverage := min 1 (1 / (1 + coeffVariance))
  let efficiency := kernel.grip.efficiency * 0.95
  let stability := min 1 (1 - coeffVariance / 10)
  { contact := contact, coverage := coverage, efficiency := efficiency,
    stability := stability,
    overall := (contact + coverage + efficiency + stability) / 4 }

/-- mutate from `ontogenesis.ts`: perturb one random coefficient additively by
`(Math.random() - 0.5) * 0.2`, log a mutation record, and recalculate the
grip.  The source copies the kernel with an object spread, so the offspring
shares the `bSeries` object with the parent; the final write
`mutated.bSeries.grip = newGrip` is therefore also visible through the parent
reference.  The function returns the offspring, the parent as it is after the
call, and the advanced random state. -/
def mutate (kernel : OntogeneticKernel) (rng : Rng) :
    OntogeneticKernel × OntogeneticKernel × Rng :=
  let (r1, rng) := rng.next
  let idx := jsFloorIndex r1 kernel.coefficients.length
  let oldValue := kernel.coefficients.getD idx 0
  let (r2, rng) := rng.next
  let mutation := (r2 - 0.5) * 0.2
  let newCoefficients := kernel.coefficients.set idx (oldValue + mutation)
  let record : MutationRecord :=
    { geneIndex := idx, oldValue := oldValue, newValue := oldValue + mutation,
      impact := mutation }
  let mutated :=
    { kernel with
      coefficients := newCoefficients,
      ontogeneticState :=
        { kernel.ontogeneticState with
          mutations := kernel.ontogeneticState.mutations ++ [record] } }
  let newGrip := recalculateGrip mutated
  let offspring :=
    { mutated with
      grip := newGrip,
      bSeries := { mutated.bSeries with grip := newGrip } }
  let parentAfter :=
    { kernel with bSeries := { kernel.bSeries with grip := newGrip } }
  (offspring, parentAfter, rng)

/-- clone from `ontogenesis.ts`: a structural copy with a fresh id,
incremented generation, singleton lineage, age 0 and reset state. -/
def clone (kernel : OntogeneticKernel) (rng : Rng) : OntogeneticKernel × Rng :=
  let (id, rng) := rng.freshId
  ({ kernel with
      genome :=
        { kernel.genome with
          id := id,
          generation := kernel.genome.generation + 1,
          lineage := [kernel.genome.id], age := 0 },
      ontogeneticState := createInitialState }, rng)

/-- mergeGenes from `ontogenesis.ts`: positionwise average of expression
strengths (keeping the first parent's gene otherwise), padded with the longer
parent's surplus genes.  The double-`none` case is unreachable below the max
length. -/
def mergeGenes (genes1 genes2 : List KernelGene) : List KernelGene :=
  (List.range (max genes1.length genes2.length)).map (fun i =>
    match genes1.get? i, genes2.get? i with
    | some g1, some g2 =>
      { g1 with expressionStrength :=
          (g1.expressionStrength + g2.expressionStrength) / 2 }
    | some g1, none => g1
    | none, some g2 => g2
    | none, none =>
      { type := .coefficient, value := .num 0, expressionStrength := 0,
        mutable := false })

/-- createOffspring from `ontogenesis.ts`: spread of the first parent with the
given coefficients, a merged genome, reset state, and recalculated grip.  As
in `mutate`, the `bSeries` object is shared with the first parent, so the
write to `offspring.bSeries.grip` also updates the parent; the parent after
the call is returned alongside the offspring. -/
def createOffspring (parent1 parent2 : OntogeneticKernel)
    (coefficients : List ℚ) (rng : Rng) :
    OntogeneticKernel × OntogeneticKernel × Rng :=
  let (id, rng) := rng.freshId
  let offspring0 : OntogeneticKernel :=
    { parent1 with
      coefficients := coefficients,
      genome :=
        { id := id,
          generation := max parent1.genome.generation parent2.genome.generation + 1,
          lineage := [parent1.genome.id, parent2.genome.id],
          genes := mergeGenes parent1.genome.genes parent2.genome.genes,
          fitness := 0, age := 0 },
      ontogeneticState := createInitialState }
  let newGrip := recalculateGrip offspring0
  let offspring :=
    { offspring0 with
      grip := newGrip,
      bSeries := { offspring0.bSeries with grip := newGrip } }
  let parent1After :=
    { parent1 with bSeries := { parent1.bSeries with grip := newGrip } }
  (offspring, parent1After, rng)

/-- crossover from `ontogenesis.ts`: single-point splice of the coefficient
arrays at a random cut, producing the two complementary offspring.  Both
`createOffspring` calls use the first parent as spread base, so the first
parent's shared `bSeries.grip` is overwritten twice (the second write wins);
the second parent is untouched. -/
def crossover (parent1 parent2 : OntogeneticKernel) (rng : Rng) :
    List OntogeneticKernel × OntogeneticKernel × Rng :=
  let (r, rng) := rng.next
  let point := jsFloorIndex r parent1.coefficients.length
  let offspring1Coeffs :=
    parent1.coefficients.take point ++ parent2.coefficients.drop point
  let offspring2Coeffs :=
    parent2.coefficients.take point ++ parent1.coefficients.drop point
  let (offspring1, parent1a, rng) :=
    createOffspring parent1 parent2 offspring1Coeffs rng
  let (offspring2, parent1b, rng) :=
    createOffspring parent1a parent2 offspring2Coeffs rng
  ([offspring1, offspring2], parent1b, rng)

/-- selfReproduce from `ontogenesis.ts`.  Besides the `ReproductionResult` it
returns both parents as they are after the call (cloning leaves them both
untouched; crossover rewrites the first parent's shared `bSeries.grip`;
mutation rewrites each parent's own `bSeries.grip`). -/
def selfReproduce (parent1 parent2 : OntogeneticKernel)
    (method : ReproductionMethod) (rng : Rng) :
    ReproductionResult × OntogeneticKernel × OntogeneticKernel × Rng :=
  match method with
  | .crossover =>
    let (offs, parent1After, rng) := crossover parent1 parent2 rng
    ({ parents := (parent1After, parent2), offspring := offs,
       method := .crossover }, parent1After, parent2, rng)
  | .mutation =>
    let (m1, parent1After, rng) := mutate parent1 rng
    let (m2, parent2After, rng) := mutate parent2 rng
    ({ parents := (parent1After, parent2After), offspring := [m1, m2],
       method := .mutation }, parent1After, parent2After, rng)
  | .cloning =>
    let (c, rng) := clone parent1 rng
    ({ parents := (parent1, parent2), offspring := [c],
       method := .cloning }, parent1, parent2, rng)

end OntogenesisEngine

namespace OntogenesisEngine

/-- calculateFitness with explicit scores:
`0.4·grip + 0.2·stability + 0.2·efficiency + 0.1·novelty + 0.1·symmetry`. -/
def calculateFitnessScores (scores : FitnessScores) : ℚ :=
  scores.grip * 0.4 + scores.stability * 0.2 + scores.efficiency * 0.2 +
    scores.novelty * 0.1 + scores.symmetry * 0.1

/-- calculateFitness without scores (novelty and symmetry default to 0.5). -/
def calculateFitness (kernel : OntogeneticKernel) : ℚ :=
  calculateFitnessScores
    { grip := kernel.grip.overall, stability := kernel.grip.stability,
      efficiency := kernel.grip.efficiency, novelty := 0.5, symmetry := 0.5 }

/-- geneticDistance from `ontogenesis.ts`: mean absolute per-index coefficient
difference (`k2.coefficients[i] || 0` reads 0 beyond the second array). -/
def geneticDistance (k1 k2 : OntogeneticKernel) : ℚ :=
  let coeffDiff := k1.coefficients.enum.map (fun ic =>
    |ic.2 - k2.coefficients.getD ic.1 0|)
  coeffDiff.foldl (fun acc d => acc + d) 0 / (coeffDiff.length : ℚ)

/-- calculateNovelty from `ontogenesis.ts`: mean genetic distance to the other
individuals (1 when there are none), clamped to 1. -/
def calculateNovelty (kernel : OntogeneticKernel)
    (population : List OntogeneticKernel) : ℚ :=
  let distances := (population.filter (fun k => k.genome.id != kernel.genome.id)).map
    (fun k => geneticDistance kernel k)
  if distances.length = 0 then 1.0
  else min 1 (distances.foldl (fun acc d => acc + d) 0 / (distances.length : ℚ))

/-- evaluateSymmetry from `ontogenesis.ts`: the symmetry gene's expression
strength, 0.5 if absent. -/
def evaluateSymmetry (kernel : OntogeneticKernel) : ℚ :=
  match kernel.genome.genes.find? (fun g => g.type == GeneType.symmetry) with
  | some g => g.expressionStrength
  | none => 0.5

/-- evaluateFitness from `ontogenesis.ts`: score every individual against the
whole list (the map index is the `rank` field). -/
def evaluateFitness (kernels : List OntogeneticKernel) : List FitnessEvaluation :=
  kernels.enum.map (fun rk =>
    let kernel := rk.2
    let scores : FitnessScores :=
      { grip := kernel.grip.overall, stability := kernel.grip.stability,
        efficiency := kernel.grip.efficiency,
        novelty := calculateNovelty kernel kernels,
        symmetry := evaluateSymmetry kernel }
    { kernel := kernel, scores := scores,
      overall := calculateFitnessScores scores, rank := rk.1 })

/-- Placeholder values returned by out-of-range random indexing; with random
values in `[0,1)` and non-empty candidate lists these are never produced. -/
def defaultOntogeneticKernel : OntogeneticKernel :=
  { domain := { type := .physics, order := 0, treeType := "", symmetry := "",
                preserves := [] },
    order := 0, trees := [], coefficients := [],
    grip := { contact := 0, coverage := 0, efficiency := 0, stability := 0,
              overall := 0 },
    bSeries :=
      { domain := { type := .physics, order := 0, treeType := "", symmetry := "",
                    preserves := [] },
        terms := [], convergenceOrder := 0,
        grip := { contact := 0, coverage := 0, efficiency := 0, stability := 0,
                  overall := 0 } },
    metadata := { optimizationIterations := 0 },
    genome := { id := 0, generation := 0, lineage := [], genes := [],
                fitness := 0, age := 0 },
    ontogeneticState := createInitialState }

/-- Placeholder fitness evaluation (see `defaultOntogeneticKernel`). -/
def defaultEvaluation : FitnessEvaluation :=
  { kernel := defaultOntogeneticKernel,
    scores := { grip := 0, stability := 0, efficiency := 0, novelty := 0,
                symmetry := 0 },
    overall := 0, rank := 0 }

/-- tournamentSelect from `ontogenesis.ts`: draw `tournamentSize` random
entries (with replacement) and keep the one of maximal overall fitness (the
source reduces with the first draw as accumulator and strict `>` as the
replacement test). -/
def tournamentSelect (evaluations : List FitnessEvaluation)
    (tournamentSize : ℕ) (rng : Rng) : FitnessEvaluation × Rng :=
  let drawn := (List.range tournamentSize).foldl
    (fun (acc : List FitnessEvaluation × Rng) _ =>
      let (r, rng') := acc.2.next
      let idx := jsFloorIndex r evaluations.length
      (acc.1 ++ [evaluations.getD idx defaultEvaluation], rng'))
    ([], rng)
  match drawn.1 with
  | [] => (defaultEvaluation, drawn.2)
  | t :: ts =>
    (ts.foldl (fun best curr => if best.overall < curr.overall then curr else best) t,
      drawn.2)

/-- updateDevelopmentStage from `ontogenesis.ts`: increment the age, then run
the branch chain (mature if maturity ≥ 0.8 and age ≥ 5, else juvenile if
maturity ≥ 0.5 and age ≥ 3, else senescent if age ≥ 20, else keep the current
stage), set the branch's reproductive capability, and append a
stage-transition event when the stage changed. -/
def updateDevelopmentStage (kernel : OntogeneticKernel) : OntogeneticKernel :=
  let age := kernel.genome.age + 1
  let maturity := kernel.ontogeneticState.maturity
  let stageAndCap : DevelopmentStage × ℚ :=
    if maturity ≥ 0.8 ∧ age ≥ 5 then (.mature, 1.0)
    else if maturity ≥ 0.5 ∧ age ≥ 3 then (.juvenile, 0.5)
    else if age ≥ 20 then (.senescent, 0.2)
    else (kernel.ontogeneticState.stage, kernel.ontogeneticState.reproductiveCapability)
  let newStage := stageAndCap.1
  let history :=
    if newStage ≠ kernel.ontogeneticState.stage then
      kernel.ontogeneticState.developmentHistory ++
        [({ type := .stageTransition,
            description := "Transitioned to " ++ newStage.name,
            fitnessChange := 0 } : DevelopmentEvent)]
    else kernel.ontogeneticState.developmentHistory
  { kernel with
    genome := { kernel.genome with age := age },
    ontogeneticState :=
      { kernel.ontogeneticState with
        stage := newStage,
        reproductiveCapability := stageAndCap.2,
        developmentHistory := history } }

/-- calculateDiversity from `ontogenesis.ts`: mean pairwise genetic distance,
0 for populations below two individuals. -/
def calculateDiversity (population : List OntogeneticKernel) : ℚ :=
  if population.length < 2 then 0
  else
    let pairs := population.enum.flatMap (fun ik =>
      (population.enum.filter (fun jk => ik.1 < jk.1)).map
        (fun jk => geneticDistance ik.2 jk.2))
    if 0 < pairs.length then
      pairs.foldl (fun acc d => acc + d) 0 / (pairs.length : ℚ)
    else 0

/-- One iteration of the offspring-generation loop of `evolve`: tournament-
select two parents, with probability `crossoverRate` append both crossover
offspring and otherwise a clone of the first parent, then with probability
`mutationRate` replace the most recently appended offspring with its
mutation. -/
def evolveStep (sorted : List FitnessEvaluation) (params : EvolutionParameters)
    (offspring : List OntogeneticKernel) (rng : Rng) :
    List OntogeneticKernel × Rng :=
  let (parent1, rng1) := tournamentSelect sorted 3 rng
  let (parent2, rng2) := tournamentSelect sorted 3 rng1
  let (r, rng3) := rng2.next
  let step1 : List OntogeneticKernel × Rng :=
    if r < params.crossoverRate then
      let (result, _, _, rng4) :=
        selfReproduce parent1.kernel parent2.kernel .crossover rng3
      (offspring ++ result.offspring, rng4)
    else
      let (c, rng4) := clone parent1.kernel rng3
      (offspring ++ [c], rng4)
  let (r2, rng5) := step1.2.next
  if r2 < params.mutationRate then
    match step1.1.getLast? with
    | some last =>
      let (m, _, rng6) := mutate last rng5
      (step1.1.dropLast ++ [m], rng6)
    | none => (step1.1, rng5)
  else (step1.1, rng5)

/-- Crossover reproduction always returns exactly two offspring. -/
theorem selfReproduce_crossover_offspring_length
    (p1 p2 : OntogeneticKernel) (rng : Rng) :
    ((selfReproduce p1 p2 .crossover rng).1.offspring).length = 2 := rfl

/-- Each loop iteration strictly grows the offspring list (crossover adds two
offspring, cloning adds one; the mutation step replaces the last element). -/
theorem evolveStep_length_lt (sorted : List FitnessEvaluation)
    (params : EvolutionParameters) (offspring : List OntogeneticKernel)
    (rng : Rng) :
    offspring.length < (evolveStep sorted params offspring rng).1.length := by
  unfold evolveStep
  rcases hts1 : tournamentSelect sorted 3 rng with ⟨parent1, rng1⟩
  rcases hts2 : tournamentSelect sorted 3 rng1 with ⟨parent2, rng2⟩
  rcases hnext : rng2.next with ⟨r, rng3⟩
  simp only [hts1, hts2, hnext]
  by_cases hc : r < params.crossoverRate
  · simp only [if_pos hc]
    rcases hsr : selfReproduce parent1.kernel parent2.kernel .crossover rng3 with
      ⟨result, pa, pb, rng4⟩
    have h2 := selfReproduce_crossover_offspring_length parent1.kernel parent2.kernel rng3
    rw [hsr] at h2
    simp only [hsr]
    rcases hnext2 : rng4.next with ⟨r2, rng5⟩
    simp only [hnext2]
    by_cases hm : r2 < params.mutationRate
    · simp only [if_pos hm]
      rcases hlast : (offspring ++ result.offspring).getLast? with _ | last
      · simp [List.length_append, h2]
      · rcases hmut : mutate last rng5 with ⟨m, pafter, rng6⟩
        simp only [hmut]
        simp only [Prod.fst] at h2
        simp only [List.length_append, List.length_dropLast, List.length_cons,
          List.length_nil, h2]
        omega
    · simp only [if_neg hm]
      simp [List.length_append, h2]
  · simp only [if_neg hc]
    rcases hcl : clone parent1.kernel rng3 with ⟨c, rng4⟩
    simp only [hcl]
    rcases hnext2 : rng4.next with ⟨r2, rng5⟩
    simp only [hnext2]
    by_cases hm : r2 < params.mutationRate
    · simp only [if_pos hm]
      rcases hlast : (offspring ++ [c]).getLast? with _ | last
      · simp [List.length_append]
      · rcases hmut : mutate last rng5 with ⟨m, pafter, rng6⟩
        simp only [hmut]
        simp [List.length_append, List.length_dropLast]
    · simp only [if_neg hm]
      simp [List.length_append]

end OntogenesisEngine

namespace OntogenesisEngine

/-- The `while offspring.length < populationSize - eliteCount` loop of
`evolve`, with `need = populationSize - eliteCount`. -/
def offspringLoop (sorted : List FitnessEvaluation) (params : EvolutionParameters)
    (need : ℕ) (offspring : List OntogeneticKernel) (rng : Rng) :
    List OntogeneticKernel × Rng :=
  if _h : offspring.length < need then
    let stepped := evolveStep sorted params offspring rng
    offspringLoop sorted params need stepped.1 stepped.2
  else (offspring, rng)
  termination_by need - offspring.length
  decreasing_by
    have := evolveStep_length_lt sorted params offspring rng
    omega

/-- The loop only stops once at least `need` offspring have been produced. -/
theorem offspringLoop_length_ge (sorted : List FitnessEvaluation)
    (params : EvolutionParameters) (need : ℕ) :
    ∀ (fuel : ℕ) (offspring : List OntogeneticKernel) (rng : Rng),
      need - offspring.length ≤ fuel →
      need ≤ ((offspringLoop sorted params need offspring rng).1).length := by
  intro fuel
  induction fuel with
  | zero =>
    intro offspring rng hf
    rw [offspringLoop]
    split
    · next h => exact absurd h (by omega)
    · next h => exact Nat.le_of_not_lt h
  | succ k ih =>
    intro offspring rng hf
    rw [offspringLoop]
    split
    · next h =>
      apply ih
      have := evolveStep_length_lt sorted params offspring rng
      omega
    · next h => exact Nat.le_of_not_lt h

/-- evolve from `ontogenesis.ts`: rank by fitness, keep the top
`floor(populationSize · elitismRate)` as elites, fill up with tournament
selection plus crossover / cloning / mutation, truncate to the population
size, age every survivor and update its development stage, and recompute the
population statistics.  The JS `Array.sort` with comparator
`(a, b) => b.overall - a.overall` is modelled as a merge sort by descending
`overall` (the same ordering up to ties); `Math.max` of an empty fitness
spread (JS `-Infinity`) is modelled as 0 and unreachable for non-empty
populations. -/
def evolve (population : KernelPopulation) (params : EvolutionParameters)
    (rng : Rng) : KernelPopulation × Rng :=
  let evaluations := evaluateFitness population.individuals
  let sorted := evaluations.mergeSort (fun a b => decide (b.overall ≤ a.overall))
  let eliteCount := (⌊(params.populationSize : ℚ) * params.elitismRate⌋).toNat
  let elite := (sorted.take eliteCount).map (fun e => e.kernel)
  let looped := offspringLoop sorted params (params.populationSize - eliteCount) [] rng
  let nextGeneration :=
    ((elite ++ looped.1).take params.populationSize).map updateDevelopmentStage
  let fitness := nextGeneration.map calculateFitness
  let avgFitness := fitness.foldl (fun acc v => acc + v) 0 / (fitness.length : ℚ)
  let bestFitness :=
    match fitness with
    | [] => 0
    | fh :: ft => ft.foldl max fh
  ({ generation := population.generation + 1,
     individuals := nextGeneration,
     populationSize := nextGeneration.length,
     averageFitness := avgFitness,
     bestFitness := bestFitness,
     diversity := calculateDiversity nextGeneration }, looped.2)

end OntogenesisEngine

/-- A small concrete ontogenetic kernel used to instantiate theorems: one
order-1 tree, the given coefficients, a fixed grip profile, and the given
developmental situation. -/
def sampleKernel (coeffs : List ℚ) (stage : DevelopmentStage) (maturity : ℚ)
    (age : ℕ) : OntogeneticKernel :=
  let domain : DomainSpecification :=
    { type := .computing, order := 1, treeType := "recursion",
      symmetry := "time-reversible", preserves := ["energy"] }
  let grip : GripMetric ℚ :=
    { contact := 1, coverage := 1, efficiency := 9/10, stability := 1,
      overall := 39/40 }
  { domain := domain, order := 1,
    trees := [ElementaryDifferentialsGenerator.leafTree],
    coefficients := coeffs, grip := grip,
    bSeries := { domain := domain, terms := [], convergenceOrder := 1, grip := grip },
    metadata := { optimizationIterations := 0 },
    genome := { id := 1, generation := 0, lineage := [], genes := [],
                fitness := 39/40, age := age },
    ontogeneticState :=
      { stage := stage, maturity := maturity, reproductiveCapability := 0,
        mutations := [], developmentHistory := [] } }

/-- A random source producing the given finite prefix (0 afterwards), starting
with a fresh cursor and id counter 100. -/
def seqRng (prefixVals : List ℚ) : Rng :=
  { vals := fun n => prefixVals.getD n 0, pos := 0, nextId := 100 }

/-- C4 counterexample: the generator's initial grip for the `speed` goal has
`overall = 0.725` (the unweighted mean) whereas the weighted combination of
its components is `0.71`; so not every produced GripMetric satisfies the
weighted formula. -/
theorem initGrip_speed_overall_not_weighted :
    (UniversalKernelGenerator.initGrip .speed).overall ≠
      0.3 * (UniversalKernelGenerator.initGrip .speed).contact +
      0.3 * (UniversalKernelGenerator.initGrip .speed).coverage +
      0.2 * (UniversalKernelGenerator.initGrip .speed).efficiency +
      0.2 * (UniversalKernelGenerator.initGrip .speed).stability := by
  norm_num [UniversalKernelGenerator.initGrip]

/-- C4 amended: `measureGrip` does satisfy
`overall = 0.3·contact + 0.3·coverage + 0.2·efficiency + 0.2·stability`, but
the generator's initial grip presets and the ontogenesis layer's grip
recalculation instead set `overall` to the unweighted mean of the four
components. -/
theorem grip_overall_formulas :
    (∀ (coeffs : List ℝ) (domain : DomainSpecification),
      (GripOptimizer.measureGrip coeffs domain).overall =
        0.3 * (GripOptimizer.measureGrip coeffs domain).contact +
        0.3 * (GripOptimizer.measureGrip coeffs domain).coverage +
        0.2 * (GripOptimizer.measureGrip coeffs domain).efficiency +
        0.2 * (GripOptimizer.measureGrip coeffs domain).stability) ∧
    (∀ (goal : OptimizationGoal),
      (UniversalKernelGenerator.initGrip goal).overall =
        ((UniversalKernelGenerator.initGrip goal).contact +
         (UniversalKernelGenerator.initGrip goal).coverage +
         (UniversalKernelGenerator.initGrip goal).efficiency +
         (UniversalKernelGenerator.initGrip goal).stability) / 4) ∧
    (∀ (k : OntogeneticKernel),
      (OntogenesisEngine.recalculateGrip k).overall =
        ((OntogenesisEngine.recalculateGrip k).contact +
         (OntogenesisEngine.recalculateGrip k).coverage +
         (OntogenesisEngine.recalculateGrip k).efficiency +
         (OntogenesisEngine.recalculateGrip k).stability) / 4) ∧
    (∀ (f g : BSeriesExpansion),
      (BSeriesEngine.chainCompose f g).grip.overall =
        (f.grip.overall + g.grip.overall) / 2) ∧
    (∀ (f g : BSeriesExpansion),
      (BSeriesEngine.productCompose f g).grip.overall =
        (f.grip.overall + g.grip.overall) / 2) ∧
    (∀ (f g : GeneratedKernel),
      (UniversalKernelGenerator.quotientCompose f g).grip.overall =
        (f.grip.overall + g.grip.overall) / 2.2) :=
  ⟨fun _ _ => rfl, fun _ => rfl, fun _ => rfl, fun _ _ => rfl, fun _ _ => rfl,
    fun _ _ => rfl⟩

/-- A concrete expansion with all grip components 1/2 (first operand). -/
def sampleExpansionA : BSeriesExpansion :=
  { domain := { type := .computing, order := 1, treeType := "recursion",
                symmetry := "s", preserves := [] },
    terms := [], convergenceOrder := 1,
    grip := { contact := 1/2, coverage := 1/2, efficiency := 1/2,
              stability := 1/2, overall := 1/2 } }

/-- A concrete expansion with all grip components 1/2 (second operand). -/
def sampleExpansionB : BSeriesExpansion :=
  { domain := { type := .physics, order := 1, treeType := "hamiltonian",
                symmetry := "s", preserves := [] },
    terms := [], convergenceOrder := 1,
    grip := { contact := 1/2, coverage := 1/2, efficiency := 1/2,
              stability := 1/2, overall := 1/2 } }

/-- C5 counterexample: chain composition of two expansions of efficiency 1/2
yields efficiency 1/4 (the product), not the average 1/2. -/
theorem chainCompose_efficiency_not_average :
    (BSeriesEngine.chainCompose sampleExpansionA sampleExpansionB).grip.efficiency ≠
      (sampleExpansionA.grip.efficiency + sampleExpansionB.grip.efficiency) / 2 := by
  norm_num [BSeriesEngine.chainCompose, sampleExpansionA, sampleExpansionB]

/-- C5 amended: the grip of `chainCompose f g` averages contact, coverage and
overall, takes the min of the stabilities, and takes the product (not the
average) of the efficiencies. -/
theorem chainCompose_grip_rule (f g : BSeriesExpansion) :
    (BSeriesEngine.chainCompose f g).grip.contact =
      (f.grip.contact + g.grip.contact) / 2 ∧
    (BSeriesEngine.chainCompose f g).grip.coverage =
      (f.grip.coverage + g.grip.coverage) / 2 ∧
    (BSeriesEngine.chainCompose f g).grip.overall =
      (f.grip.overall + g.grip.overall) / 2 ∧
    (BSeriesEngine.chainCompose f g).grip.stability =
      min f.grip.stability g.grip.stability ∧
    (BSeriesEngine.chainCompose f g).grip.efficiency =
      f.grip.efficiency * g.grip.efficiency :=
  ⟨rfl, rfl, rfl, rfl, rfl⟩

/-- C7 counterexample: the hardcoded table holds 0 at index 0, so
`count 0 = 0`, not 1. -/
theorem count_zero_is_zero :
    ElementaryDifferentialsGenerator.count 0 = 0 ∧
    ElementaryDifferentialsGenerator.count 0 ≠ 1 := by
  constructor <;>
    norm_num [ElementaryDifferentialsGenerator.count,
      ElementaryDifferentialsGenerator.a000081]

/-- C7 amended: the exact table gives 0 at n = 0 and the A000081 values
1, 1, 2, 4, 9, 20, 48, 115, 286, 719, 1842, 4766, 12486, 32973 at
n = 1..14; for n > 14 `count` returns `floor(2.9557652856^n / sqrt n)`. -/
theorem count_table_and_asymptotic :
    ElementaryDifferentialsGenerator.count 0 = 0 ∧
    ElementaryDifferentialsGenerator.count 1 = 1 ∧
    ElementaryDifferentialsGenerator.count 2 = 1 ∧
    ElementaryDifferentialsGenerator.count 3 = 2 ∧
    ElementaryDifferentialsGenerator.count 4 = 4 ∧
    ElementaryDifferentialsGenerator.count 5 = 9 ∧
    ElementaryDifferentialsGenerator.count 6 = 20 ∧
    ElementaryDifferentialsGenerator.count 7 = 48 ∧
    ElementaryDifferentialsGenerator.count 8 = 115 ∧
    ElementaryDifferentialsGenerator.count 9 = 286 ∧
    ElementaryDifferentialsGenerator.count 10 = 719 ∧
    ElementaryDifferentialsGenerator.count 11 = 1842 ∧
    ElementaryDifferentialsGenerator.count 12 = 4766 ∧
    ElementaryDifferentialsGenerator.count 13 = 12486 ∧
    ElementaryDifferentialsGenerator.count 14 = 32973 ∧
    ∀ (n : ℕ), 14 < n →
      ElementaryDifferentialsGenerator.count n =
        ⌊(2.9557652856 : ℝ) ^ n / Real.sqrt n⌋ := by
  refine ⟨?_, ?_, ?_, ?_, ?_, ?_, ?_, ?_, ?_, ?_, ?_, ?_, ?_, ?_, ?_, ?_⟩ <;>
    first
      | (intro n hn
         have hlt : ¬ n < ElementaryDifferentialsGenerator.a000081.length := by
           simp only [ElementaryDifferentialsGenerator.a000081, List.length_cons,
             List.length_nil]
           omega
         unfold ElementaryDifferentialsGenerator.count
         rw [if_neg hlt])
      | (norm_num [ElementaryDifferentialsGenerator.count,
          ElementaryDifferentialsGenerator.a000081])

/-- C7 witness: the asymptotic branch at the first index past the table. -/
theorem count_table_and_asymptotic_witness :
    ElementaryDifferentialsGenerator.count 15 =
      ⌊(2.9557652856 : ℝ) ^ 15 / Real.sqrt 15⌋ := by
  have h := count_table_and_asymptotic
  exact h.2.2.2.2.2.2.2.2.2.2.2.2.2.2.2 15 (by norm_num)

/-- C8: the hardcoded order-4 catalog has 5 trees while `count 4 = 4`, and the
two functions agree at orders 1, 2 and 3 (lengths 1, 1, 2). -/
theorem generate_count_order4_discrepancy :
    (ElementaryDifferentialsGenerator.generate 4).length = 5 ∧
    ElementaryDifferentialsGenerator.count 4 = 4 ∧
    ((ElementaryDifferentialsGenerator.generate 1).length : ℤ) =
      ElementaryDifferentialsGenerator.count 1 ∧
    ((ElementaryDifferentialsGenerator.generate 2).length : ℤ) =
      ElementaryDifferentialsGenerator.count 2 ∧
    ((ElementaryDifferentialsGenerator.generate 3).length : ℤ) =
      ElementaryDifferentialsGenerator.count 3 := by
  refine ⟨?_, ?_, ?_, ?_, ?_⟩ <;>
    norm_num [ElementaryDifferentialsGenerator.count,
      ElementaryDifferentialsGenerator.a000081,
      ElementaryDifferentialsGenerator.generate]

/-- C1 counterexample: an individual in the senescent stage with maturity 0.6
and age 19 is updated (age becomes 20) to the juvenile stage: its age is at
least 20 yet its stage is not senescent, and the transition
senescent → juvenile is a regression. -/
theorem updateDevelopmentStage_senescent_regression :
    (sampleKernel [1/2] .senescent (3/5) 19).ontogeneticState.stage = .senescent ∧
    (OntogenesisEngine.updateDevelopmentStage
      (sampleKernel [1/2] .senescent (3/5) 19)).genome.age = 20 ∧
    (OntogenesisEngine.updateDevelopmentStage
      (sampleKernel [1/2] .senescent (3/5) 19)).ontogeneticState.stage = .juvenile := by
  refine ⟨rfl, ?_, ?_⟩ <;>
    norm_num [OntogenesisEngine.updateDevelopmentStage, sampleKernel]

/-- C1 amended: `updateDevelopmentStage` increments the age and applies the
first matching rule of the chain mature / juvenile / senescent; consequently
an individual reaching age ≥ 20 moves to (or stays in) senescent only when
its maturity is below 0.5, an individual with maturity ≥ 0.8 and age ≥ 5 is
set to mature even from the senescent stage (so transitions can regress), and
the claimed unconditional age-20 senescence does not hold. -/
theorem updateDevelopmentStage_rule (k : OntogeneticKernel) :
    (OntogenesisEngine.updateDevelopmentStage k).genome.age = k.genome.age + 1 ∧
    (k.ontogeneticState.maturity < 1/2 → 19 ≤ k.genome.age →
      (OntogenesisEngine.updateDevelopmentStage k).ontogeneticState.stage =
        .senescent) ∧
    (4/5 ≤ k.ontogeneticState.maturity → 4 ≤ k.genome.age →
      (OntogenesisEngine.updateDevelopmentStage k).ontogeneticState.stage =
        .mature) := by
  unfold OntogenesisEngine.updateDevelopmentStage
  refine ⟨rfl, ?_, ?_⟩
  · intro hm ha
    have h1 : ¬ (k.ontogeneticState.maturity ≥ 0.8 ∧ k.genome.age + 1 ≥ 5) := by
      rintro ⟨hc, -⟩
      norm_num at hc
      linarith
    have h2 : ¬ (k.ontogeneticState.maturity ≥ 0.5 ∧ k.genome.age + 1 ≥ 3) := by
      rintro ⟨hc, -⟩
      norm_num at hc
      linarith
    have h3 : k.genome.age + 1 ≥ 20 := by omega
    simp only [h1, h2, h3, if_true, if_false, ite_true, ite_false,
      if_neg h1, if_neg h2, if_pos h3]
  · intro hm ha
    have h1 : k.ontogeneticState.maturity ≥ 0.8 ∧ k.genome.age + 1 ≥ 5 := by
      constructor
      · norm_num
        linarith
      · omega
    simp only [if_pos h1]

/-- C1 witness: a senescent-stage transition produced by the amended rule at a
concrete low-maturity old individual. -/
theorem updateDevelopmentStage_rule_witness :
    (sampleKernel [1/2] .embryonic 0 19).ontogeneticState.maturity < 1/2 ∧
    19 ≤ (sampleKernel [1/2] .embryonic 0 19).genome.age ∧
    (OntogenesisEngine.updateDevelopmentStage
      (sampleKernel [1/2] .embryonic 0 19)).ontogeneticState.stage = .senescent := by
  refine ⟨by norm_num [sampleKernel], by norm_num [sampleKernel], ?_⟩
  exact (updateDevelopmentStage_rule (sampleKernel [1/2] .embryonic 0 19)).2.1
    (by norm_num [sampleKernel]) (by norm_num [sampleKernel])

/-- C10: applying the quotient operator to a kernel with itself zeroes every
coefficient, since each position combines as `(c - c) / (1 + |c|)`; hence
`selfGenerate` on a parent of maturity ≥ 0.8 (which selects the quotient
operator) produces an offspring whose coefficient vector is identically
zero. -/
theorem quotient_self_zero :
    (∀ (k : GeneratedKernel),
      ∀ c ∈ (UniversalKernelGenerator.quotientCompose k k).coefficients, c = 0) ∧
    (∀ (parent : OntogeneticKernel) (rng : Rng),
      4/5 ≤ parent.ontogeneticState.maturity →
      ∀ c ∈ ((OntogenesisEngine.selfGenerate parent rng).1).coefficients, c = 0) := by
  have part1 : ∀ (k : GeneratedKernel),
      ∀ c ∈ (UniversalKernelGenerator.quotientCompose k k).coefficients, c = 0 := by
    intro k c hc
    simp only [UniversalKernelGenerator.quotientCompose, List.mem_map,
      List.mem_range] at hc
    obtain ⟨i, _, rfl⟩ := hc
    simp
  refine ⟨part1, ?_⟩
  intro parent rng hm c hc
  have hop : OntogenesisEngine.selectOperator parent = .quotient := by
    unfold OntogenesisEngine.selectOperator
    rw [if_neg, if_neg]
    · intro hlt
      norm_num at hlt
      linarith
    · intro hlt
      norm_num at hlt
      linarith
  have hcoef : ((OntogenesisEngine.selfGenerate parent rng).1).coefficients =
      (UniversalKernelGenerator.quotientCompose parent.toGeneratedKernel
        parent.toGeneratedKernel).coefficients := by
    unfold OntogenesisEngine.selfGenerate
    rw [hop]
    rfl
  rw [hcoef] at hc
  exact part1 parent.toGeneratedKernel c hc

/-- C10 witness: a concrete mature parent whose self-generated offspring has
an all-zero coefficient vector. -/
theorem quotient_self_zero_witness :
    4/5 ≤ (sampleKernel [1/2] .mature (9/10) 0).ontogeneticState.maturity ∧
    ((OntogenesisEngine.selfGenerate (sampleKernel [1/2] .mature (9/10) 0)
      (seqRng [])).1).coefficients.all (fun c => c == 0) = true := by
  constructor
  · norm_num [sampleKernel]
  · rw [List.all_eq_true]
    intro c hc
    have := quotient_self_zero.2 (sampleKernel [1/2] .mature (9/10) 0) (seqRng [])
      (by norm_num [sampleKernel]) c hc
    simpa using this

/-- C3 counterexample: reproducing two concrete parents by mutation rewrites
the first parent's `bSeries.grip` (its contact drops from 1 to 2/5), because
the offspring produced by the object spread shares the parent's `bSeries`
object and `mutate` assigns the recalculated grip through it. -/
theorem selfReproduce_mutation_changes_parent :
    ((OntogenesisEngine.selfReproduce (sampleKernel [1/2] .embryonic 0 0)
        (sampleKernel [1/2] .juvenile 0 0) .mutation
        (seqRng [])).2.1).bSeries.grip.contact = 2/5 ∧
    (sampleKernel [1/2] .embryonic 0 0).bSeries.grip.contact = 1 ∧
    ((OntogenesisEngine.selfReproduce (sampleKernel [1/2] .embryonic 0 0)
        (sampleKernel [1/2] .juvenile 0 0) .mutation
        (seqRng [])).2.1).bSeries.grip ≠
      (sampleKernel [1/2] .embryonic 0 0).bSeries.grip := by
  have h1 : ((OntogenesisEngine.selfReproduce (sampleKernel [1/2] .embryonic 0 0)
      (sampleKernel [1/2] .juvenile 0 0) .mutation
      (seqRng [])).2.1).bSeries.grip.contact = 2/5 := by
    norm_num [OntogenesisEngine.selfReproduce, OntogenesisEngine.mutate,
      OntogenesisEngine.recalculateGrip, OntogenesisEngine.variance,
      jsFloorIndex, Rng.next, seqRng, sampleKernel, min_def, abs_of_nonneg]
  refine ⟨h1, rfl, fun h => ?_⟩
  have h2 := congrArg GripMetric.contact h
  rw [h1] at h2
  norm_num [sampleKernel] at h2

/-- C3 amended: `selfReproduce` leaves the parents' coefficients, grip field,
genome, ontogenetic state and b-series terms unchanged for every method, and
cloning leaves both parents entirely unchanged; but crossover overwrites the
first parent's `bSeries.grip` with the second offspring's recalculated grip
(the second parent stays untouched), and mutation overwrites each parent's
own `bSeries.grip` with its offspring's recalculated grip, through the
`bSeries` object shared by the spread copies. -/
theorem selfReproduce_parent_effects (p1 p2 : OntogeneticKernel) (rng : Rng) :
    ((OntogenesisEngine.selfReproduce p1 p2 .cloning rng).2.1 = p1 ∧
     (OntogenesisEngine.selfReproduce p1 p2 .cloning rng).2.2.1 = p2) ∧
    (((OntogenesisEngine.selfReproduce p1 p2 .mutation rng).2.1).coefficients =
        p1.coefficients ∧
     ((OntogenesisEngine.selfReproduce p1 p2 .mutation rng).2.1).genome = p1.genome ∧
     ((OntogenesisEngine.selfReproduce p1 p2 .mutation rng).2.1).ontogeneticState =
        p1.ontogeneticState ∧
     ((OntogenesisEngine.selfReproduce p1 p2 .mutation rng).2.1).grip = p1.grip ∧
     ((OntogenesisEngine.selfReproduce p1 p2 .mutation rng).2.1).bSeries.terms =
        p1.bSeries.terms ∧
     ((OntogenesisEngine.selfReproduce p1 p2 .mutation rng).2.1).bSeries.grip =
        ((OntogenesisEngine.mutate p1 rng).1).grip ∧
     ((OntogenesisEngine.selfReproduce p1 p2 .mutation rng).2.2.1).coefficients =
        p2.coefficients ∧
     ((OntogenesisEngine.selfReproduce p1 p2 .mutation rng).2.2.1).genome =
        p2.genome ∧
     ((OntogenesisEngine.selfReproduce p1 p2 .mutation rng).2.2.1).ontogeneticState =
        p2.ontogeneticState ∧
     ((OntogenesisEngine.selfReproduce p1 p2 .mutation rng).2.2.1).bSeries.grip =
        ((OntogenesisEngine.mutate p2 ((OntogenesisEngine.mutate p1 rng).2.2)).1).grip) ∧
    ((OntogenesisEngine.selfReproduce p1 p2 .crossover rng).2.2.1 = p2 ∧
     ((OntogenesisEngine.selfReproduce p1 p2 .crossover rng).2.1).coefficients =
        p1.coefficients ∧
     ((OntogenesisEngine.selfReproduce p1 p2 .crossover rng).2.1).genome =
        p1.genome ∧
     ((OntogenesisEngine.selfReproduce p1 p2 .crossover rng).2.1).ontogeneticState =
        p1.ontogeneticState ∧
     ((OntogenesisEngine.selfReproduce p1 p2 .crossover rng).2.1).grip = p1.grip ∧
     ((OntogenesisEngine.selfReproduce p1 p2 .crossover rng).2.1).bSeries.terms =
        p1.bSeries.terms ∧
     ((OntogenesisEngine.selfReproduce p1 p2 .crossover rng).2.1).bSeries.grip =
        (((OntogenesisEngine.selfReproduce p1 p2 .crossover rng).1).offspring.getD 1
          OntogenesisEngine.defaultOntogeneticKernel).grip) :=
  ⟨⟨rfl, rfl⟩,
   ⟨rfl, rfl, rfl, rfl, rfl, rfl, rfl, rfl, rfl, rfl⟩,
   ⟨rfl, rfl, rfl, rfl, rfl, rfl, rfl⟩⟩

/-- C6 counterexample: with parent coefficient 0.1 and a random draw of 3/4,
mutation produces the coefficient 0.1 + (3/4 - 0.5)·0.2 = 0.15, which is not
within ±10% of 0.1 (the band [0.09, 0.11]): the perturbation is additive, not
relative. -/
theorem mutate_not_relative_ten_percent :
    ((OntogenesisEngine.selfReproduce (sampleKernel [1/10] .embryonic 0 0)
        (sampleKernel [1/10] .juvenile 0 0) .mutation
        (seqRng [0, 3/4, 0, 3/4])).1.offspring.getD 0
        OntogenesisEngine.defaultOntogeneticKernel).coefficients.getD 0 0 = 3/20 ∧
    ¬ (|(3/20 : ℚ) - 1/10| ≤ |(1/10 : ℚ)| * (1/10)) := by
  constructor
  · norm_num [OntogenesisEngine.selfReproduce, OntogenesisEngine.mutate,
      OntogenesisEngine.recalculateGrip, OntogenesisEngine.variance,
      jsFloorIndex, Rng.next, seqRng, sampleKernel, min_def, abs_of_nonneg]
  · rw [abs_of_nonneg (by norm_num), abs_of_nonneg (by norm_num)]
    norm_num

/-- C6 amended: `selfReproduce(_, _, mutation)` produces the two offspring
`mutate p1` and `mutate p2`; for a kernel with a non-empty coefficient array
and random draws in `[0,1)`, `mutate` picks the index
`floor(r·length)` (always in range), replaces the coefficient there by
`old + d` with the additive perturbation `d = (r2 - 0.5)·0.2 ∈ [-0.1, 0.1)`
(not a ±10% relative change), leaves every other index unchanged (the arrays
differ at exactly the chosen index whenever `d ≠ 0`), and appends a mutation
record with the old value, new value and index. -/
theorem mutation_additive_rule :
    (∀ (p1 p2 : OntogeneticKernel) (rng : Rng),
      (OntogenesisEngine.selfReproduce p1 p2 .mutation rng).1.offspring =
        [(OntogenesisEngine.mutate p1 rng).1,
         (OntogenesisEngine.mutate p2 ((OntogenesisEngine.mutate p1 rng).2.2)).1]) ∧
    (∀ (k : OntogeneticKernel) (rng : Rng),
      k.coefficients ≠ [] →
      0 ≤ rng.vals rng.pos → rng.vals rng.pos < 1 →
      0 ≤ rng.vals (rng.pos + 1) → rng.vals (rng.pos + 1) < 1 →
      jsFloorIndex (rng.vals rng.pos) k.coefficients.length <
        k.coefficients.length ∧
      ((OntogenesisEngine.mutate k rng).1).coefficients =
        k.coefficients.set (jsFloorIndex (rng.vals rng.pos) k.coefficients.length)
          (k.coefficients.getD
              (jsFloorIndex (rng.vals rng.pos) k.coefficients.length) 0 +
            (rng.vals (rng.pos + 1) - 0.5) * 0.2) ∧
      -(1/10) ≤ (rng.vals (rng.pos + 1) - 0.5) * 0.2 ∧
      (rng.vals (rng.pos + 1) - 0.5) * 0.2 < 1/10 ∧
      ((OntogenesisEngine.mutate k rng).1).ontogeneticState.mutations =
        k.ontogeneticState.mutations ++
          [{ geneIndex := jsFloorIndex (rng.vals rng.pos) k.coefficients.length,
             oldValue := k.coefficients.getD
               (jsFloorIndex (rng.vals rng.pos) k.coefficients.length) 0,
             newValue := k.coefficients.getD
                 (jsFloorIndex (rng.vals rng.pos) k.coefficients.length) 0 +
               (rng.vals (rng.pos + 1) - 0.5) * 0.2,
             impact := (rng.vals (rng.pos + 1) - 0.5) * 0.2 }] ∧
      ((rng.vals (rng.pos + 1) - 0.5) * 0.2 ≠ 0 →
        ((OntogenesisEngine.mutate k rng).1).coefficients ≠ k.coefficients)) := by
  refine ⟨fun p1 p2 rng => rfl, ?_⟩
  intro k rng hne h0 h1 h2 h3
  have hlen : 0 < k.coefficients.length := List.length_pos.mpr hne
  have hidx : jsFloorIndex (rng.vals rng.pos) k.coefficients.length <
      k.coefficients.length := by
    unfold jsFloorIndex
    have hfl0 : (0 : ℤ) ≤ ⌊rng.vals rng.pos * (k.coefficients.length : ℚ)⌋ :=
      Int.floor_nonneg.mpr (mul_nonneg h0 (by positivity))
    rw [Int.toNat_lt hfl0, Int.floor_lt]
    push_cast
    have := mul_lt_mul_of_pos_right h1 (by exact_mod_cast hlen :
      (0 : ℚ) < (k.coefficients.length : ℚ))
    linarith
  refine ⟨hidx, rfl, by linarith, by linarith, rfl, ?_⟩
  intro hd hEq
  have hco : ((OntogenesisEngine.mutate k rng).1).coefficients =
      k.coefficients.set (jsFloorIndex (rng.vals rng.pos) k.coefficients.length)
        (k.coefficients.getD
            (jsFloorIndex (rng.vals rng.pos) k.coefficients.length) 0 +
          (rng.vals (rng.pos + 1) - 0.5) * 0.2) := rfl
  rw [hco] at hEq
  have hset := congrArg (fun l => l.getD
    (jsFloorIndex (rng.vals rng.pos) k.coefficients.length) 0) hEq
  simp only at hset
  rw [List.getD_eq_getElem _ _ (by rw [List.length_set]; exact hidx),
    List.getElem_set_self] at hset
  rw [List.getD_eq_getElem _ _ hidx] at hset
  exact hd (by linarith)

/-- C6 witness: the amended mutation rule instantiated at a concrete kernel
and random stream (draws 0 and 3/4). -/
theorem mutation_additive_rule_witness :
    (sampleKernel [1/10] .embryonic 0 0).coefficients ≠ [] ∧
    jsFloorIndex ((seqRng [0, 3/4]).vals (seqRng [0, 3/4]).pos)
        (sampleKernel [1/10] .embryonic 0 0).coefficients.length <
      (sampleKernel [1/10] .embryonic 0 0).coefficients.length ∧
    -(1/10) ≤
      ((seqRng [0, 3/4]).vals ((seqRng [0, 3/4]).pos + 1) - 0.5) * 0.2 ∧
    ((seqRng [0, 3/4]).vals ((seqRng [0, 3/4]).pos + 1) - 0.5) * 0.2 < 1/10 := by
  have h := mutation_additive_rule.2 (sampleKernel [1/10] .embryonic 0 0)
    (seqRng [0, 3/4])
    (by norm_num [sampleKernel])
    (by norm_num [seqRng]) (by norm_num [seqRng])
    (by norm_num [seqRng]) (by norm_num [seqRng])
  exact ⟨by norm_num [sampleKernel], h.1, h.2.2.1, h.2.2.2.1⟩

/-- C9 counterexample: the RK4 expansion is built from `generate 4`, whose
catalog contains only order-4 trees, so it has no order-1 terms at all: the
order-1 coefficient sum is 0, not 1, and misses `1/1!` by far more than
`1e-10`. -/
theorem rk4_order1_sum_is_zero :
    ((BSeriesEngine.generateRungeKutta 4).terms.filter
        (fun t => t.order == 1)).foldl (fun acc t => acc + t.coefficient) 0 = 0 ∧
    ¬ (|((BSeriesEngine.generateRungeKutta 4).terms.filter
        (fun t => t.order == 1)).foldl (fun acc t => acc + t.coefficient) 0 - 1| ≤
      (1e-10 : ℚ)) := by
  have hsum : ((BSeriesEngine.generateRungeKutta 4).terms.filter
      (fun t => t.order == 1)).foldl (fun acc t => acc + t.coefficient) 0 = 0 := by
    simp [BSeriesEngine.generateRungeKutta, BSeriesEngine.generateExpansion,
      ElementaryDifferentialsGenerator.generate,
      ElementaryDifferentialsGenerator.leafTree,
      ElementaryDifferentialsGenerator.tree2,
      ElementaryDifferentialsGenerator.tree3a,
      ElementaryDifferentialsGenerator.tree3b, RTree.order]
  refine ⟨hsum, ?_⟩
  rw [hsum]
  norm_num

/-- C9 amended: on `generateRungeKutta 4` the order-1 condition fails (the
expansion has no order-1 terms, the sum is 0, and `verifyOrderConditions`
returns false); the order-1 condition does hold, exactly, on
`generateRungeKutta 1`, whose single term has coefficient 1 and which passes
`verifyOrderConditions`. -/
theorem rk_order1_conditions :
    ((BSeriesEngine.generateRungeKutta 4).terms.filter
        (fun t => t.order == 1)).foldl (fun acc t => acc + t.coefficient) 0 = 0 ∧
    BSeriesEngine.verifyOrderConditions (BSeriesEngine.generateRungeKutta 4) =
      false ∧
    ((BSeriesEngine.generateRungeKutta 1).terms.filter
        (fun t => t.order == 1)).foldl (fun acc t => acc + t.coefficient) 0 = 1 ∧
    BSeriesEngine.verifyOrderConditions (BSeriesEngine.generateRungeKutta 1) =
      true := by
  have hsum4 : ((BSeriesEngine.generateRungeKutta 4).terms.filter
      (fun t => t.order == 1)).foldl (fun acc t => acc + t.coefficient) 0 = 0 := by
    simp [BSeriesEngine.generateRungeKutta, BSeriesEngine.generateExpansion,
      ElementaryDifferentialsGenerator.generate,
      ElementaryDifferentialsGenerator.leafTree,
      ElementaryDifferentialsGenerator.tree2,
      ElementaryDifferentialsGenerator.tree3a,
      ElementaryDifferentialsGenerator.tree3b, RTree.order]
  have hsum1 : ((BSeriesEngine.generateRungeKutta 1).terms.filter
      (fun t => t.order == 1)).foldl (fun acc t => acc + t.coefficient) 0 = 1 := by
    norm_num [BSeriesEngine.generateRungeKutta, BSeriesEngine.generateExpansion,
      BSeriesEngine.getButcherTableau, BSeriesEngine.computeCoefficient,
      ElementaryDifferentialsGenerator.generate,
      ElementaryDifferentialsGenerator.leafTree,
      ElementaryDifferentialsGenerator.symmetryFactor, RTree.order]
  refine ⟨hsum4, ?_, hsum1, ?_⟩
  · unfold BSeriesEngine.verifyOrderConditions
    rw [List.all_eq_false]
    refine ⟨0, by norm_num [BSeriesEngine.generateRungeKutta,
      BSeriesEngine.generateExpansion], ?_⟩
    simp only [decide_eq_false_iff_not, not_le]
    have : (0 : ℕ) + 1 = 1 := rfl
    rw [this]
    rw [hsum4]
    norm_num [BSeriesEngine.factorial]
  · unfold BSeriesEngine.verifyOrderConditions
    rw [List.all_eq_true]
    intro i hi
    have hi1 : i = 0 := by
      simp [BSeriesEngine.generateRungeKutta, BSeriesEngine.generateExpansion,
        List.mem_range] at hi
      omega
    subst hi1
    simp only [decide_eq_true_eq]
    have : (0 : ℕ) + 1 = 1 := rfl
    rw [this, hsum1]
    norm_num [BSeriesEngine.factorial]

/-- The fitness evaluation list has one entry per individual. -/
theorem evaluateFitness_length (ks : List OntogeneticKernel) :
    (OntogenesisEngine.evaluateFitness ks).length = ks.length := by
  simp [OntogenesisEngine.evaluateFitness, List.enum_length]

/-- C2: for a population whose individual list matches
`params.populationSize ≥ 1` and an elitism rate in `[0,1]`, `evolve` returns
exactly `params.populationSize` individuals: the offspring loop may overshoot
by one when crossover appends two offspring, but the combined elite+offspring
list is truncated to the population size. -/
theorem evolve_preserves_population_size
    (pop : KernelPopulation) (params : EvolutionParameters) (rng : Rng)
    (hlen : pop.individuals.length = params.populationSize)
    (hpos : 1 ≤ params.populationSize)
    (_h0 : 0 ≤ params.elitismRate) (h1 : params.elitismRate ≤ 1) :
    ((OntogenesisEngine.evolve pop params rng).1).individuals.length =
      params.populationSize := by
  have hec : (⌊(params.populationSize : ℚ) * params.elitismRate⌋).toNat ≤
      params.populationSize := by
    have hle : (params.populationSize : ℚ) * params.elitismRate ≤
        (params.populationSize : ℚ) :=
      mul_le_of_le_one_right (by positivity) h1
    have hfl : ⌊(params.populationSize : ℚ) * params.elitismRate⌋ ≤
        (params.populationSize : ℤ) := by
      calc ⌊(params.populationSize : ℚ) * params.elitismRate⌋ ≤
          ⌊(params.populationSize : ℚ)⌋ := Int.floor_le_floor hle
        _ = (params.populationSize : ℤ) := Int.floor_natCast _
    exact Int.toNat_le.mpr hfl
  have hloop : params.populationSize -
      (⌊(params.populationSize : ℚ) * params.elitismRate⌋).toNat ≤
      (OntogenesisEngine.offspringLoop
        ((OntogenesisEngine.evaluateFitness pop.individuals).mergeSort
          (fun a b => decide (b.overall ≤ a.overall)))
        params
        (params.populationSize -
          (⌊(params.populationSize : ℚ) * params.elitismRate⌋).toNat)
        [] rng).1.length :=
    OntogenesisEngine.offspringLoop_length_ge _ params _
      params.populationSize [] rng
      (by simp only [List.length_nil, Nat.sub_zero]; omega)
  unfold OntogenesisEngine.evolve
  simp only [List.length_map, List.length_take, List.length_append,
    List.length_mergeSort, evaluateFitness_length, hlen]
  omega

/-- C2 witness: a singleton population evolved with population size 1 and all
rates 1/2 keeps exactly one individual. -/
theorem evolve_preserves_population_size_witness :
    ([sampleKernel [1/2] .embryonic 0 0] : List OntogeneticKernel).length = 1 ∧
    ((OntogenesisEngine.evolve
        { generation := 0, individuals := [sampleKernel [1/2] .embryonic 0 0],
          populationSize := 1, averageFitness := 0, bestFitness := 0,
          diversity := 0 }
        { populationSize := 1, mutationRate := 1/2, crossoverRate := 1/2,
          elitismRate := 1/2, maxGenerations := 10, fitnessThreshold := 1,
          diversityPressure := 0 }
        (seqRng [])).1).individuals.length = 1 := by
  refine ⟨rfl, ?_⟩
  exact evolve_preserves_population_size _ _ _ rfl (le_refl 1)
    (by norm_num) (by norm_num)
